import Mathlib

/-!
A shallow embedding of `crashinfo.c`.

The C program reads a kernel crash dump through libkvm and prints the dump
header, the panic record, the kernel log and a list of tunables.  This file
embeds `nicenum`, `dumpheader`, `panicbuf`, `msgbuf` and `tunables` as Lean
functions and proves properties of them.

Conventions of the embedding.

* Standard output is the list of `printf` calls made, in order: each call is
  recorded with its format string and its arguments (`Printf`).  A call of
  `die` ends the run: its format and arguments are kept in `Run.fatal`.
* `kvm_read` and `kvm_nlist` belong to libkvm.  They are fields of `kvm_t`:
  `kvm_read addr size` is `none` when the C call returns -1 and otherwise the
  bytes copied out of the image.
* Sizes, constants and field positions that come from system headers
  (`sys/panic.h`, `sys/stream.h`, `sys/strlog.h`, `sys/dumphdr.h`, ...) are
  not part of the program text.  They are the fields of `Platform`.
* Machine integers are natural numbers or integers with explicit reduction
  modulo a power of two.
-/

namespace Crashinfo

/-! ## printf calls and runs -/

/-- An argument passed to `printf` after the format string. -/
inductive Arg where
  /-- A string literal or a string held by the program. -/
  | str (s : String)
  /-- A C string in memory copied from the image: the bytes before the first NUL. -/
  | cstr (bytes : List Nat)
  /-- A character array passed for the conversion `%s`, given by the bytes
  stored in it.  No end of string is assumed: see `printed_text`. -/
  | chars (array : List Nat)
  /-- An unsigned integer value. -/
  | nat (n : Nat)
  /-- A signed integer value. -/
  | int (i : Int)
  /-- A pointer value (for the conversion `%p`). -/
  | ptr (p : Nat)
  /-- The text of `strerror(errno)`. -/
  | strerror_errno
  deriving DecidableEq

/-- One call of `printf` (or of `die`): the format string and the arguments. -/
structure Printf where
  fmt : String
  args : List Arg
  deriving DecidableEq

/-- What a function of the program did: the `printf` calls it made on standard
output, in order, and the `die` call that ended the process, if any. -/
structure Run where
  out : List Printf
  fatal : Option Printf
  deriving DecidableEq

/-- The call `die(message, ...)`: the message goes to standard error and the process
exits with status 1; what was printed before stays printed. -/
def die (out : List Printf) (message : String) (args : List Arg) : Run :=
  ⟨out, some ⟨message, args⟩⟩

/-- The bytes of the C string that starts at the head of `bytes`: everything
before the first NUL byte. -/
def cstring (bytes : List Nat) : List Nat :=
  bytes.takeWhile (fun b => b != 0)

/-- The text the conversion `%s` prints for a character array that holds
`array`: the bytes before the first NUL.  When the array holds no NUL byte,
`printf` reads on behind the array, and the text is not determined by the
array: the result is `none`. -/
def printed_text (array : List Nat) : Option (List Nat) :=
  if array.contains 0 then some (cstring array) else none

/-! ## nicenum -/

/-- Loop body of `nicenum`: `n = (n + (1024 / 2)) / 1024` on `uint64_t`. -/
def nicenum_step (n : Nat) : Nat :=
  ((n + 1024 / 2) % 2 ^ 64) / 1024

/-- The loop `while (n >= 1024) { n = (n + (1024 / 2)) / 1024; index++; }`.
The result is the pair `(n, index)` on exit. -/
def nicenum_loop (n : Nat) (index : Nat) : Nat × Nat :=
  if h : n ≥ 1024 then nicenum_loop (nicenum_step n) (index + 1) else (n, index)
termination_by n
decreasing_by
  unfold nicenum_step
  omega

/-- The lookup `" KMGTPE"[index]`: `none` when `index` is outside the seven
characters of the table. -/
def unit_char (index : Nat) : Option Char :=
  " KMGTPE".toList.get? index

/-- Quotient `a / b` rounded to the nearest integer, ties to even. -/
def round_half_even (a b : Nat) : Nat :=
  if 2 * (a % b) > b ∨ (2 * (a % b) = b ∧ (a / b) % 2 = 1) then a / b + 1 else a / b

/-- Number of low bits a value loses when it is stored with a 53-bit
significand: the least `s` (up to the fuel) with `num < 2 ^ (53 + s)`. -/
def excess_bits : Nat → Nat → Nat
  | 0, _ => 0
  | fuel + 1, num => if num < 2 ^ 53 then 0 else 1 + excess_bits fuel (num / 2)

/-- The conversion `(double)num` of a `uint64_t`: the value is kept when it has
at most 53 significant bits and is rounded to 53 significant bits (ties to
even) otherwise.  The result is again an integer. -/
def to_double (num : Nat) : Nat :=
  round_half_even num (2 ^ excess_bits 11 num) * 2 ^ excess_bits 11 num

/-- Left-pads a string of digits with zeros up to `width`. -/
def zero_pad (width : Nat) (s : String) : String :=
  String.mk (List.replicate (width - s.length) (Char.ofNat 48)) ++ s

/-- The conversion `%.<prec>f` applied to the non-negative value `a / b`: the
exact quotient rounded to `prec` decimals (ties to even), written as integer
part, point, and `prec` digits. -/
def fmt_f (prec : Nat) (a b : Nat) : String :=
  toString (round_half_even (a * 10 ^ prec) b / 10 ^ prec) ++ "." ++
    zero_pad prec (toString (round_half_even (a * 10 ^ prec) b % 10 ^ prec))

/-- The test `(num & (num - 1)) != 0` on `uint64_t`. -/
def not_pow2 (num : Nat) : Bool :=
  (num &&& ((num + 2 ^ 64 - 1) % 2 ^ 64)) != 0

/-- The part of `nicenum` after the loop: picks the unit character and one of
the four `sprintf` calls.  `num` is the argument, `n` and `index` the values
the loop left.  The division `(double)num / (1ULL << 10 * index)` divides by a
power of two and is exact. -/
def nicenum_fmt (num n index : Nat) : String :=
  let u := (unit_char index).getD (Char.ofNat 0)
  if index = 0 then
    toString n
  else if n < 10 ∧ not_pow2 num then
    fmt_f 2 (to_double num) (2 ^ (10 * index)) ++ String.singleton u
  else if n < 100 ∧ not_pow2 num then
    fmt_f 1 (to_double num) (2 ^ (10 * index)) ++ String.singleton u
  else
    toString n ++ String.singleton u

/-- The function `nicenum(num, buf)`: the string left in `buf`. -/
def nicenum (num : Nat) : String :=
  nicenum_fmt num (nicenum_loop num 0).1 (nicenum_loop num 0).2

/-- The rendering the specification gives for the power of two `2 ^ k`: the
digits of `2 ^ (k mod 10)` followed by the unit at index `k div 10` of
none, K, M, G, T, P, E. -/
def pow2_rendering (k : Nat) : String :=
  toString (2 ^ (k % 10)) ++ ["", "K", "M", "G", "T", "P", "E"].getD (k / 10) ""

/-! ## Parameters taken from the system headers and from libc -/

/-- Constants, sizes and field positions that the program takes from the
system headers.  A structure read from the image is a list of bytes; each
field accessor maps the bytes of a structure (from its first byte on) to the
value of the field, which fixes offset, width and byte order in one place. -/
structure Platform where
  /-- Width in bits of `size_t` and of `unsigned long`. -/
  wordsize : Nat
  /-- The value of `sizeof (int)`. -/
  sizeof_int : Nat
  /-- The value of `sizeof (uintptr_t)`. -/
  sizeof_uintptr_t : Nat
  /-- The value of `sizeof (cpu_t)`. -/
  sizeof_cpu_t : Nat
  /-- The value of `sizeof (kthread_t)`. -/
  sizeof_kthread_t : Nat
  /-- The value of `sizeof (queue_t)`. -/
  sizeof_queue_t : Nat
  /-- The value of `sizeof (mblk_t)`, which is `struct msgb`. -/
  sizeof_mblk_t : Nat
  /-- The value of `sizeof (log_ctl_t)`. -/
  sizeof_log_ctl_t : Nat
  /-- The value of `sizeof (panic_data_t)`. -/
  sizeof_panic_data_t : Nat
  /-- The value of `sizeof (panic_nv_t)`. -/
  sizeof_panic_nv_t : Nat
  /-- The constant `PANICBUFSIZE` of `sys/panic.h`. -/
  PANICBUFSIZE : Nat
  /-- The constant `PANICBUFVERS` of `sys/panic.h`. -/
  PANICBUFVERS : Nat
  /-- The flag masks of `sys/dumphdr.h`. -/
  DF_VALID : Nat
  DF_COMPLETE : Nat
  DF_LIVE : Nat
  DF_KERNEL : Nat
  DF_CURPROC : Nat
  DF_ALL : Nat
  /-- The value of an `int` object given its bytes. -/
  int_of : List Nat → Int
  /-- The value of a pointer object given its bytes. -/
  uintptr_of : List Nat → Nat
  /-- Field `cpu_id` of a `cpu_t`. -/
  cpu_id : List Nat → Int
  /-- Field `q_first` of a `queue_t`. -/
  q_first : List Nat → Nat
  /-- Field `b_next` of an `mblk_t`. -/
  b_next : List Nat → Nat
  /-- Field `b_cont` of an `mblk_t`. -/
  b_cont : List Nat → Nat
  /-- Field `b_rptr` of an `mblk_t`. -/
  b_rptr : List Nat → Nat
  /-- Field `ttime` of a `log_ctl_t`. -/
  ttime : List Nat → Int
  /-- Field `pd_version` of a `panic_data_t`. -/
  pd_version : List Nat → Nat
  /-- Field `pd_msgoff` of a `panic_data_t`. -/
  pd_msgoff : List Nat → Nat
  /-- Field `pnv_name` of a `panic_nv_t`: the bytes from the start of the
  character array on. -/
  pnv_name : List Nat → List Nat
  /-- Field `pnv_value` of a `panic_nv_t`. -/
  pnv_value : List Nat → Nat

/-- Functions of libc whose result depends on the locale and the time zone. -/
structure Libc where
  /-- The string returned by `ctime` for a `time_t`. -/
  ctime : Int → String
  /-- The string `strftime` writes for `localtime` of a `time_t` with the
  format `"%Y %b %d %H:%M:%S"`. -/
  strftime_localtime : Int → String

/-- Subtraction of two `size_t` values. -/
def size_t_sub (P : Platform) (a b : Nat) : Nat :=
  (a % 2 ^ P.wordsize + 2 ^ P.wordsize - b % 2 ^ P.wordsize) % 2 ^ P.wordsize

/-- Conversion of an unsigned value to `int` (32 bits, two's complement). -/
def to_int (v : Nat) : Int :=
  if v % 2 ^ 32 < 2 ^ 31 then (v % 2 ^ 32 : Nat) else (v % 2 ^ 32 : Nat) - 2 ^ 32

/-- Conversion of a signed value to `uint64_t`. -/
def to_uint64 (v : Int) : Nat :=
  (v % 2 ^ 64).toNat

/-! ## The image handle -/

/-- The type `struct utsname`. -/
structure utsname where
  sysname : String
  nodename : String
  release : String
  version : String
  machine : String

/-- The fields of `struct dumphdr` that the program prints. -/
structure dumphdr where
  dump_magic : Nat
  dump_version : Int
  dump_flags : Nat
  dump_wordsize : Nat
  dump_start : Int
  dump_ksyms : Int
  dump_pfn : Int
  dump_map : Int
  dump_data : Int
  dump_utsname : utsname
  dump_platform : String
  dump_panicstring : String
  dump_crashtime : Int
  dump_pageshift : Int
  dump_pagesize : Int
  dump_hashmask : Nat
  dump_nvtop : Nat
  dump_npages : Nat
  dump_ksyms_size : Nat
  dump_ksyms_csize : Nat

/-- The handle `kvm_t *kd` together with the behaviour of libkvm on it. -/
structure kvm_t where
  /-- The dump header, loaded by `kvm_open`. -/
  kvm_dump : dumphdr
  /-- The value `kvm_nlist(kd, nl)` returns for the names of `nl`. -/
  nlist_ret : List String → Int
  /-- The `n_value` that `kvm_nlist` stores for a name. -/
  n_value : String → Nat
  /-- The call `kvm_read(kd, addr, buf, size)`: `none` when it returns -1,
  otherwise the bytes stored in `buf`. -/
  kvm_read : Nat → Nat → Option (List Nat)

/-- The type `struct nlist`, as far as the program uses it. -/
structure nlist where
  n_name : String
  n_value : Nat
  deriving DecidableEq

/-- The call `kvm_nlist(kd, nl)` on an array initialised with `names`: the
returned value and the array with `n_value` filled in. -/
def kvm_nlist (kd : kvm_t) (names : List String) : Int × List nlist :=
  (kd.nlist_ret names, names.map (fun s => ⟨s, kd.n_value s⟩))

/-- The array element `nl[i]`. -/
def nl_get (nl : List nlist) (i : Nat) : nlist :=
  nl.getD i ⟨"", 0⟩

/-! ## dumpheader -/

/-- The flag words of `dumpheader`: the three conditional `printf` calls on
`DF_VALID`, `DF_COMPLETE` and `DF_LIVE`, then the chain
`if (DF_KERNEL) ... else if (DF_CURPROC) ... else if (DF_ALL) ...`. -/
def flag_words (P : Platform) (dump_flags : Nat) : List Printf :=
  [⟨if dump_flags &&& P.DF_VALID ≠ 0 then " (VALID|" else " (INVALID|", []⟩,
   ⟨if dump_flags &&& P.DF_COMPLETE ≠ 0 then "COMPLETE|" else "INCOMPLETE|", []⟩,
   ⟨if dump_flags &&& P.DF_LIVE ≠ 0 then "LIVE|" else "CRASH|", []⟩] ++
  (if dump_flags &&& P.DF_KERNEL ≠ 0 then [⟨"KERNEL)\n", []⟩]
   else if dump_flags &&& P.DF_CURPROC ≠ 0 then [⟨"CURPROC)\n", []⟩]
   else if dump_flags &&& P.DF_ALL ≠ 0 then [⟨"ALL)\n", []⟩]
   else [])

/-- The function `dumpheader()`: every `printf` call it makes, in order. -/
def dumpheader (P : Platform) (L : Libc) (kd : kvm_t) : List Printf :=
  [⟨"============== dump headers ==============\n", []⟩,
   ⟨"magic:%-13s %x\n", [.str "", .nat kd.kvm_dump.dump_magic]⟩,
   ⟨"flags:%-13s 0x%x", [.str "", .nat kd.kvm_dump.dump_flags]⟩] ++
  flag_words P kd.kvm_dump.dump_flags ++
  [⟨"version:%-11s %d\n", [.str "", .int kd.kvm_dump.dump_version]⟩,
   ⟨"wordsize:%-10s %u\n", [.str "", .nat kd.kvm_dump.dump_wordsize]⟩,
   ⟨"start:%-13s %lld\n", [.str "", .int kd.kvm_dump.dump_start]⟩,
   ⟨"ksyms:%-13s %lld\n", [.str "", .int kd.kvm_dump.dump_ksyms]⟩,
   ⟨"pfn:%-15s %lld\n", [.str "", .int kd.kvm_dump.dump_pfn]⟩,
   ⟨"map:%-15s %lld\n", [.str "", .int kd.kvm_dump.dump_map]⟩,
   ⟨"data:%-14s %lld\n", [.str "", .int kd.kvm_dump.dump_data]⟩,
   ⟨"utsname.sysname:%-3s %s\n", [.str "", .str kd.kvm_dump.dump_utsname.sysname]⟩,
   ⟨"utsname.nodename:%-2s %s\n", [.str "", .str kd.kvm_dump.dump_utsname.nodename]⟩,
   ⟨"utsname.release:%-3s %s\n", [.str "", .str kd.kvm_dump.dump_utsname.release]⟩,
   ⟨"utsname.version:%-3s %s\n", [.str "", .str kd.kvm_dump.dump_utsname.version]⟩,
   ⟨"utsname.machine:%-3s %s\n", [.str "", .str kd.kvm_dump.dump_utsname.machine]⟩,
   ⟨"platform:%-10s %s\n", [.str "", .str kd.kvm_dump.dump_platform]⟩,
   ⟨"panicstr:%-10s %s\n", [.str "", .str kd.kvm_dump.dump_panicstring]⟩,
   ⟨"crashtime:%-9s %s", [.str "", .str (L.ctime kd.kvm_dump.dump_crashtime)]⟩,
   ⟨"pageshift:%-9s %ld\n", [.str "", .int kd.kvm_dump.dump_pageshift]⟩,
   ⟨"pagesize:%-10s %ld (%s)\n", [.str "", .int kd.kvm_dump.dump_pagesize,
     .str (nicenum (to_uint64 kd.kvm_dump.dump_pagesize))]⟩,
   ⟨"hashmask:%-10s 0x%lx\n", [.str "", .nat kd.kvm_dump.dump_hashmask]⟩,
   ⟨"nvtop:%-13s %lu\n", [.str "", .nat kd.kvm_dump.dump_nvtop]⟩,
   ⟨"npages:%-12s %lu (%s)\n", [.str "", .nat kd.kvm_dump.dump_npages,
     .str (nicenum ((kd.kvm_dump.dump_npages *
       (kd.kvm_dump.dump_pagesize % 2 ^ P.wordsize).toNat) % 2 ^ P.wordsize))]⟩,
   ⟨"ksyms_size:%-8s %zu (%s)\n", [.str "", .nat kd.kvm_dump.dump_ksyms_size,
     .str (nicenum kd.kvm_dump.dump_ksyms_size)]⟩,
   ⟨"ksyms_csize:%-7s %zu (%s)\n", [.str "", .nat kd.kvm_dump.dump_ksyms_csize,
     .str (nicenum kd.kvm_dump.dump_ksyms_csize)]⟩]

/-! ## panicbuf -/

/-- The names of the static array `nl` of `panicbuf`. -/
def panicbuf_nl : List String :=
  ["panic_cpu", "panic_thread", "panicbuf"]

/-- Modelled from the spec: the declaration of `panic_data_t` (`sys/panic.h`)
is missing.  The specification calls `sizeof (panic_data_t) - sizeof
(panic_nv_t)` the fixed header size and has the name/value pairs fill the
record after it, so the member `pd_nvdata`, the last one, starts at that byte
offset. -/
def offsetof_pd_nvdata (P : Platform) : Nat :=
  size_t_sub P P.sizeof_panic_data_t P.sizeof_panic_nv_t

/-- The bytes of the array element `pd->pd_nvdata[i]`, from its first byte on. -/
def pd_nvdata (P : Platform) (buf : List Nat) (i : Nat) : List Nat :=
  buf.drop (offsetof_pd_nvdata P + i * P.sizeof_panic_nv_t)

/-- The assignment `n = (pd->pd_msgoff - (sizeof (panic_data_t) - sizeof
(panic_nv_t))) / sizeof (panic_nv_t)`: computed in `size_t`, stored in an
`int`. -/
def nv_count (P : Platform) (buf : List Nat) : Int :=
  to_int (size_t_sub P (P.pd_msgoff buf)
    (size_t_sub P P.sizeof_panic_data_t P.sizeof_panic_nv_t) / P.sizeof_panic_nv_t)

/-- The `printf` call of the body of the loop over the pairs, for index `i`. -/
def nv_line (P : Platform) (buf : List Nat) (i : Nat) : Printf :=
  ⟨"%16s %llx\n", [.cstr (cstring (P.pnv_name (pd_nvdata P buf i))),
    .nat (P.pnv_value (pd_nvdata P buf i))]⟩

/-- The loop `for (i = 0; i < n; i++)` of `panicbuf`, with `int` counters. -/
def nv_lines (P : Platform) (buf : List Nat) (n : Int) : List Printf :=
  (List.range n.toNat).map (nv_line P buf)

/-- The function `panicbuf()`.  The second read copies `sizeof (kthread_t)`
bytes to the address of the pointer `panic_thread`; the pointer printed is
made of the first bytes read.  A string printed with `%s` ends at its first
NUL byte, or at the end of the buffer when there is none. -/
def panicbuf (P : Platform) (kd : kvm_t) : Run :=
  let nl := (kvm_nlist kd panicbuf_nl).2
  if (kvm_nlist kd panicbuf_nl).1 = -1 then
    die [] "symbol lookup error\n" []
  else
    match kd.kvm_read (nl_get nl 0).n_value P.sizeof_cpu_t with
    | none => die [] "kvm_read error: %s\n" [.str (nl_get nl 0).n_name]
    | some panic_cpu =>
      let out1 : List Printf :=
        [⟨"=============== panic info ===============\n", []⟩,
         ⟨"%16s %d\n", [.str "cpu", .int (P.cpu_id panic_cpu)]⟩]
      match kd.kvm_read (nl_get nl 1).n_value P.sizeof_kthread_t with
      | none => die out1 "kvm_read error: %s\n" [.str (nl_get nl 0).n_name]
      | some panic_thread =>
        let out2 : List Printf :=
          out1 ++ [⟨"%16s %p\n", [.str "thread", .ptr (P.uintptr_of panic_thread)]⟩]
        match kd.kvm_read (nl_get nl 2).n_value (1 * P.PANICBUFSIZE) with
        | none => die out2 "kvm_read error: %s\n" [.str (nl_get nl 0).n_name]
        | some buf =>
          if P.pd_version buf = P.PANICBUFVERS then
            ⟨out2 ++ [⟨"%16s %s\n", [.str "message",
                .cstr (cstring (buf.drop (P.pd_msgoff buf)))]⟩] ++
              nv_lines P buf (nv_count P buf), none⟩
          else
            ⟨out2, none⟩

/-! ## msgbuf -/

/-- The loop `for (mp = next.b_next; mp != NULL; ) { ... mp = nx.b_next; }` of
`msgbuf`, from the value `mp` on, with `out` printed so far.  Every test of
the loop condition uses one unit of fuel; `none` means the fuel ran out.  The
control block `lctl` is read only when the verbose flag is set.  The call
`printf("%s", line)` is recorded with the array `line` as the read filled it;
the array need not hold a NUL byte. -/
def msgbuf_loop (P : Platform) (L : Libc) (verbose_flg : Int) (kd : kvm_t) :
    Nat → Nat → List Printf → Option Run
  | 0, _, _ => none
  | fuel + 1, mp, out =>
    if mp = 0 then some ⟨out, none⟩
    else
      match kd.kvm_read mp P.sizeof_mblk_t with
      | none => some (die out "kvm_read error: %s" [.strerror_errno])
      | some nx =>
        match (if verbose_flg ≠ 0 then kd.kvm_read (P.b_rptr nx) P.sizeof_log_ctl_t
               else some []) with
        | none => some (die out "kvm_read error: %s" [.strerror_errno])
        | some lctl =>
          match kd.kvm_read (P.b_cont nx) P.sizeof_mblk_t with
          | none => some (die out "kvm_read error: %s" [.strerror_errno])
          | some cont =>
            match kd.kvm_read (P.b_rptr cont) 1024 with
            | none => some (die out "kvm_read error: %s" [.strerror_errno])
            | some line =>
              msgbuf_loop P L verbose_flg kd fuel (P.b_next nx)
                (out ++
                  (if verbose_flg ≠ 0 then
                    [⟨"%s ", [.str (L.strftime_localtime (P.ttime lctl))]⟩]
                   else []) ++
                  [⟨"%s", [.chars line]⟩])

/-- The function `msgbuf()`, with fuel for its loop. -/
def msgbuf (P : Platform) (L : Libc) (verbose_flg : Int) (kd : kvm_t) (fuel : Nat) :
    Option Run :=
  let nl := (kvm_nlist kd ["log_recentq"]).2
  if (kvm_nlist kd ["log_recentq"]).1 = -1 then
    some (die [] "kvm_nlist error" [])
  else
    match kd.kvm_read (nl_get nl 0).n_value P.sizeof_uintptr_t with
    | none => some (die [] "kvm_read error: %s" [.str (nl_get nl 0).n_name])
    | some qp =>
      match kd.kvm_read (P.uintptr_of qp) P.sizeof_queue_t with
      | none => some (die [] "kvm_read error: %s" [.strerror_errno])
      | some q =>
        match kd.kvm_read (P.q_first q) P.sizeof_mblk_t with
        | none => some (die [] "kvm_read error: %s" [.strerror_errno])
        | some first =>
          match kd.kvm_read (P.b_next first) P.sizeof_mblk_t with
          | none => some (die [] "kvm_read error: %s" [.strerror_errno])
          | some next =>
            msgbuf_loop P L verbose_flg kd fuel (P.b_next next)
              [⟨"============ system messages =============\n", []⟩]

/-! ## tunables -/

/-- The names of the static array `nl` of `tunables`. -/
def tunables_nl : List String :=
  ["avefree", "ddi_msix_alloc_limit", "default_stksize", "desfree", "fastscan",
   "freemem", "handspreadpages", "idle_cpu_no_deep_c", "idle_cpu_prefer_mwait",
   "kmem_flags", "kmem_stackinfo", "logevent_max_q_sz", "looppages", "lotsfree",
   "lwp_default_stksize", "max_nprocs", "max_page_get", "maxpgio", "maxuprc",
   "maxusers", "minfree", "ncsize", "ngroups_max", "noexec_user_stack", "nproc",
   "npty", "pageout_reserve", "physmem", "rstchown", "scsi_options", "sd_io_time",
   "sd_max_throttle", "segkpsize", "slowscan", "swapfs_minfree", "swapfs_reserve",
   "throttlefree", "tune_t_fsflushr", "vhci_io_time", "zfs_arc_max"]

/-- The loop `for (i = 0; i < 40; i++)` of `tunables`, from the value `i` on
with `todo = 40 - i` iterations left and `out` printed so far. -/
def tunables_loop (P : Platform) (kd : kvm_t) (nl : List nlist) :
    Nat → Nat → List Printf → Run
  | 0, _, out => ⟨out, none⟩
  | todo + 1, i, out =>
    match kd.kvm_read (nl_get nl i).n_value P.sizeof_int with
    | none => die out "kvm_read error: %s\n" [.str (nl_get nl i).n_name]
    | some tunable =>
      tunables_loop P kd nl todo (i + 1)
        (out ++ [⟨"%21s %d\n", [.str (nl_get nl i).n_name, .int (P.int_of tunable)]⟩])

/-- The function `tunables()`.  The lookup result is compared with `-11`. -/
def tunables (P : Platform) (kd : kvm_t) : Run :=
  let nl := (kvm_nlist kd tunables_nl).2
  if (kvm_nlist kd tunables_nl).1 = -11 then
    die [] "symbol lookup error\n" []
  else
    tunables_loop P kd nl 40 0 [⟨"=============== system tunables ==========\n", []⟩]

/-! ## Vocabulary of the properties -/

/-- Well-formedness of the panic record layout: a pair has a positive size,
`panic_data_t` contains a pair and fits in the panic buffer, and the buffer
size fits in an `int`; `size_t` has at least 32 bits. -/
def panic_layout_ok (P : Platform) : Prop :=
  0 < P.sizeof_panic_nv_t ∧ P.sizeof_panic_nv_t ≤ P.sizeof_panic_data_t ∧
    P.sizeof_panic_data_t ≤ P.PANICBUFSIZE ∧ P.PANICBUFSIZE < 2 ^ 31 ∧ 32 ≤ P.wordsize

instance (P : Platform) : Decidable (panic_layout_ok P) := by
  unfold panic_layout_ok
  infer_instance

/-- The value the loop variable `mp` of `msgbuf` is initialised with,
`next.b_next`, when the four reads before the loop succeed. -/
def msgbuf_start (P : Platform) (kd : kvm_t) : Option Nat :=
  match kd.kvm_read (kd.n_value "log_recentq") P.sizeof_uintptr_t with
  | none => none
  | some qp =>
    match kd.kvm_read (P.uintptr_of qp) P.sizeof_queue_t with
    | none => none
    | some q =>
      match kd.kvm_read (P.q_first q) P.sizeof_mblk_t with
      | none => none
      | some first =>
        match kd.kvm_read (P.b_next first) P.sizeof_mblk_t with
        | none => none
        | some next => some (P.b_next next)

/-- The start the specification describes: the `next` reference of the buffer
that `q_first` of the queue addresses. -/
def spec_start (P : Platform) (kd : kvm_t) : Option Nat :=
  match kd.kvm_read (kd.n_value "log_recentq") P.sizeof_uintptr_t with
  | none => none
  | some qp =>
    match kd.kvm_read (P.uintptr_of qp) P.sizeof_queue_t with
    | none => none
    | some q =>
      match kd.kvm_read (P.q_first q) P.sizeof_mblk_t with
      | none => none
      | some first => some (P.b_next first)

/-- The reference stored in `b_next` of the node at address `a` (null when the
node cannot be read). -/
def next_of (P : Platform) (kd : kvm_t) (a : Nat) : Nat :=
  match kd.kvm_read a P.sizeof_mblk_t with
  | none => 0
  | some nx => P.b_next nx

/-- Holds when, starting from the reference `mp`, the list
`nodes` is the sequence of addresses of a chain of readable message-buffer
nodes linked by `b_next` and terminated by null. -/
def is_chain (P : Platform) (kd : kvm_t) : Nat → List Nat → Bool
  | mp, [] => mp == 0
  | mp, a :: rest =>
    mp == a && a != 0 && (kd.kvm_read a P.sizeof_mblk_t).isSome &&
      is_chain P kd (next_of P kd a) rest

/-- The 1024 bytes read from `b_rptr` of the `b_cont` block of the node at
address `a` (empty when a read fails). -/
def node_line (P : Platform) (kd : kvm_t) (a : Nat) : List Nat :=
  match kd.kvm_read a P.sizeof_mblk_t with
  | none => []
  | some nx =>
    match kd.kvm_read (P.b_cont nx) P.sizeof_mblk_t with
    | none => []
    | some cont => (kd.kvm_read (P.b_rptr cont) 1024).getD []

/-- The time stamp of the node at address `a`: field `ttime` of the control
block read from `b_rptr` of the node. -/
def node_ttime (P : Platform) (kd : kvm_t) (a : Nat) : Int :=
  match kd.kvm_read a P.sizeof_mblk_t with
  | none => 0
  | some nx => P.ttime ((kd.kvm_read (P.b_rptr nx) P.sizeof_log_ctl_t).getD [])

/-- The log entry of the node at address `a`: the formatted time stamp when
the verbose flag is set, then the call that prints the array read for the
node. -/
def log_entry (P : Platform) (L : Libc) (verbose_flg : Int) (kd : kvm_t) (a : Nat) :
    List Printf :=
  (if verbose_flg ≠ 0 then
    [⟨"%s ", [.str (L.strftime_localtime (node_ttime P kd a))]⟩]
   else []) ++
  [⟨"%s", [.chars (node_line P kd a)]⟩]

/-- The arrays passed by the calls `printf("%s", line)` of an output of
`msgbuf`, in order. -/
def line_args (out : List Printf) : List (List Nat) :=
  out.filterMap (fun p =>
    if p.fmt = "%s" then
      match p.args with
      | [.chars line] => some line
      | _ => none
    else none)

/-- The reads the body of the loop of `msgbuf` performs for the node at
address `a` all succeed: the node, its control block when the verbose flag is
set, its continuation block, and the 1024 bytes at `b_rptr` of that block. -/
def node_readable (P : Platform) (verbose_flg : Int) (kd : kvm_t) (a : Nat) : Bool :=
  match kd.kvm_read a P.sizeof_mblk_t with
  | none => false
  | some nx =>
    match kd.kvm_read (P.b_cont nx) P.sizeof_mblk_t with
    | none => false
    | some cont =>
      (decide (verbose_flg = 0) || (kd.kvm_read (P.b_rptr nx) P.sizeof_log_ctl_t).isSome) &&
        (kd.kvm_read (P.b_rptr cont) 1024).isSome

/-! ## A sample platform and sample images -/

/-- Value of the first `k` bytes of a list, least significant byte first. -/
def le_value (k : Nat) (bytes : List Nat) : Nat :=
  (bytes.take k).foldr (fun b acc => b + 256 * acc) 0

/-- The `k` bytes of a value, least significant byte first. -/
def le_bytes (k v : Nat) : List Nat :=
  (List.range k).map (fun i => v / 256 ^ i % 256)

/-- A 64-bit little-endian platform.  The panic record has version 2, an
8192-byte buffer, a 48-byte fixed header and 24-byte pairs (a 16-byte name
and a 64-bit value); a message block holds `b_next` at offset 0, `b_cont` at
16 and `b_rptr` at 24. -/
def sample_platform : Platform where
  wordsize := 64
  sizeof_int := 4
  sizeof_uintptr_t := 8
  sizeof_cpu_t := 16
  sizeof_kthread_t := 16
  sizeof_queue_t := 24
  sizeof_mblk_t := 32
  sizeof_log_ctl_t := 24
  sizeof_panic_data_t := 72
  sizeof_panic_nv_t := 24
  PANICBUFSIZE := 8192
  PANICBUFVERS := 2
  DF_VALID := 0x00000001
  DF_COMPLETE := 0x00000002
  DF_LIVE := 0x00000004
  DF_KERNEL := 0x00010000
  DF_ALL := 0x00020000
  DF_CURPROC := 0x00040000
  int_of := fun bytes => to_int (le_value 4 bytes)
  uintptr_of := le_value 8
  cpu_id := fun bytes => to_int (le_value 4 bytes)
  q_first := fun bytes => le_value 8 (bytes.drop 8)
  b_next := le_value 8
  b_cont := fun bytes => le_value 8 (bytes.drop 16)
  b_rptr := fun bytes => le_value 8 (bytes.drop 24)
  ttime := fun bytes => to_int (le_value 4 (bytes.drop 12))
  pd_version := le_value 4
  pd_msgoff := fun bytes => le_value 4 (bytes.drop 4)
  pnv_name := fun bytes => bytes
  pnv_value := fun bytes => le_value 8 (bytes.drop 16)

/-- A libc for the samples: times are shown as decimal numbers. -/
def sample_libc : Libc where
  ctime := fun t => toString t ++ "\n"
  strftime_localtime := fun t => toString t

/-- A dump header for the samples. -/
def sample_dumphdr : dumphdr where
  dump_magic := 0xdefec8ed
  dump_version := 10
  dump_flags := 0x00010003
  dump_wordsize := 64
  dump_start := 0
  dump_ksyms := 0
  dump_pfn := 0
  dump_map := 0
  dump_data := 0
  dump_utsname := ⟨"SunOS", "host", "5.11", "sample", "i86pc"⟩
  dump_platform := "i86pc"
  dump_panicstring := "sample"
  dump_crashtime := 0
  dump_pageshift := 12
  dump_pagesize := 4096
  dump_hashmask := 0
  dump_nvtop := 0
  dump_npages := 0
  dump_ksyms_size := 0
  dump_ksyms_csize := 0

/-- An image given by its symbol table and its readable regions.  A batched
lookup returns -1 when a name is missing from the table and stores 0 as the
value of a missing name; a read succeeds when `addr` is the start of a region
and yields the first `size` bytes of it. -/
def image_of (symtab : List (String × Nat)) (regions : List (Nat × List Nat)) : kvm_t where
  kvm_dump := sample_dumphdr
  nlist_ret := fun names => if names.all (fun s => (symtab.lookup s).isSome) then 0 else -1
  n_value := fun s => (symtab.lookup s).getD 0
  kvm_read := fun addr size => (regions.lookup addr).map (fun bytes => bytes.take size)

/-- An image like `image_of` in which every read succeeds: an address outside
the regions reads as zero bytes. -/
def total_image_of (symtab : List (String × Nat)) (regions : List (Nat × List Nat)) :
    kvm_t where
  kvm_dump := sample_dumphdr
  nlist_ret := fun names => if names.all (fun s => (symtab.lookup s).isSome) then 0 else -1
  n_value := fun s => (symtab.lookup s).getD 0
  kvm_read := fun addr size =>
    some (((regions.lookup addr).getD (List.replicate size 0)).take size)

/-- The bytes of a message block of the sample platform. -/
def mk_mblk (b_next b_cont b_rptr : Nat) : List Nat :=
  le_bytes 8 b_next ++ le_bytes 8 0 ++ le_bytes 8 b_cont ++ le_bytes 8 b_rptr

/-- The regions of a log: the symbol `log_recentq` at 256 holds the queue
address 512; the queue has `q_first` 768; the buffer at 768 is followed by the
nodes at 1024, 1280, 1536 and 1792, the last one with a null `b_next`.  The
node at address `a` has its continuation block at `a + 64`, whose `b_rptr` is
`a + 128`, where the text is. -/
def log_regions : List (Nat × List Nat) :=
  [(256, le_bytes 8 512),
   (512, le_bytes 8 0 ++ le_bytes 8 768 ++ le_bytes 8 0),
   (768, mk_mblk 1024 832 0), (832, mk_mblk 0 0 896), (896, [70, 10, 0]),
   (1024, mk_mblk 1280 1088 0), (1088, mk_mblk 0 0 1152), (1152, [65, 10, 0]),
   (1280, mk_mblk 1536 1344 0), (1344, mk_mblk 0 0 1408), (1408, [66, 10, 0]),
   (1536, mk_mblk 1792 1600 0), (1600, mk_mblk 0 0 1664), (1664, [67, 10, 0]),
   (1792, mk_mblk 0 1856 0), (1856, mk_mblk 0 0 1920), (1920, [68, 10, 0])]

/-- An image holding the sample log, every read succeeding. -/
def log_image : kvm_t :=
  total_image_of [("log_recentq", 256)] log_regions

/-- An image holding the sample log in which a read outside the regions
fails. -/
def log_image_strict : kvm_t :=
  image_of [("log_recentq", 256)] log_regions

/-- The bytes of a panic buffer of the sample platform: version, message
offset, 40 bytes of uuid and padding, the pairs, the message, and zeros up to
8192 bytes. -/
def mk_panicbuf (version msgoff : Nat) (pairs : List (List Nat × Nat)) (msg : List Nat) :
    List Nat :=
  le_bytes 4 version ++ le_bytes 4 msgoff ++ List.replicate 40 0 ++
    (pairs.map (fun nv =>
      (nv.1 ++ List.replicate (16 - nv.1.length) 0) ++ le_bytes 8 nv.2)).flatten ++
    msg ++ List.replicate (8192 - (48 + 24 * pairs.length + msg.length)) 0

/-- A panic buffer with the given version, two pairs named `pc` and `sp`, and
the message at offset 96. -/
def panic_bytes (version : Nat) : List Nat :=
  mk_panicbuf version 96 [([112, 99], 255), ([115, 112], 4096)] [111, 111, 112, 115]

/-- The bytes of the sample `cpu_t`: `cpu_id` is 3. -/
def cpu_bytes : List Nat :=
  le_bytes 4 3 ++ List.replicate 12 0

/-- The bytes read at the sample `panic_thread`: the pointer 65536 first. -/
def thread_bytes : List Nat :=
  le_bytes 8 65536 ++ List.replicate 8 0

/-- The symbol table of the panic samples. -/
def panic_symtab : List (String × Nat) :=
  [("panic_cpu", 4096), ("panic_thread", 4112), ("panicbuf", 8192)]

/-- An image whose panic buffer has version 2. -/
def panic_image : kvm_t :=
  image_of panic_symtab [(4096, cpu_bytes), (4112, thread_bytes), (8192, panic_bytes 2)]

/-- An image whose panic buffer carries version 1 in front of the same bytes. -/
def panic_image_v1 : kvm_t :=
  image_of panic_symtab [(4096, cpu_bytes), (4112, thread_bytes), (8192, panic_bytes 1)]

/-- An image in which `panic_cpu` can be read and `panic_thread` cannot: the
three symbols resolve, and no region starts at the address of `panic_thread`. -/
def panic_image_thread_unreadable : kvm_t :=
  image_of panic_symtab [(4096, cpu_bytes), (8192, panic_bytes 2)]

/-- An image in which `panic_cpu` and `panic_thread` can be read and the
buffer `panicbuf` cannot. -/
def panic_image_buf_unreadable : kvm_t :=
  image_of panic_symtab [(4096, cpu_bytes), (4112, thread_bytes)]

/-- An image whose symbol table lacks `zfs_arc_max`, the last name of the
tunables list: the other 39 names resolve to the addresses 4096, 4100, ...,
each holding the `int` 7. -/
def tunables_image_unresolved : kvm_t :=
  image_of
    ((tunables_nl.take 39).enum.map (fun e => (e.2, 4096 + 4 * e.1)))
    ((List.range 39).map (fun i => (4096 + 4 * i, le_bytes 4 7)))

/-! ## Properties of nicenum -/

theorem nicenum_loop_eq (n index : Nat) :
    nicenum_loop n index =
      if n ≥ 1024 then nicenum_loop (nicenum_step n) (index + 1) else (n, index) := by
  rw [nicenum_loop]
  split <;> rfl

theorem nicenum_loop_fst_lt (n : Nat) : ∀ index, (nicenum_loop n index).1 < 1024 := by
  induction n using Nat.strong_induction_on with
  | _ n ih =>
    intro index
    rw [nicenum_loop_eq]
    split
    · apply ih
      unfold nicenum_step
      omega
    · simp only
      omega

theorem nicenum_loop_index_le (j : Nat) :
    ∀ n index, n ≤ 16 * 1024 ^ j → (nicenum_loop n index).2 ≤ index + j := by
  induction j with
  | zero =>
    intro n index h
    rw [nicenum_loop_eq]
    have h1 : ¬ n ≥ 1024 := by simp at h; omega
    simp [h1]
  | succ j ih =>
    intro n index h
    rw [nicenum_loop_eq]
    split
    · next h1 =>
      have h2 : nicenum_step n ≤ 16 * 1024 ^ j := by
        unfold nicenum_step
        have h3 : (n + 1024 / 2) % 2 ^ 64 ≤ n + 1024 / 2 := Nat.mod_le _ _
        rw [Nat.pow_succ] at h
        omega
      have h4 := ih (nicenum_step n) (index + 1) h2
      omega
    · simp

/-- C10: for every `num`, in particular for every 64-bit one, the loop of
`nicenum`, a total function whose addition is reduced modulo 2^64, ends with a
remaining value below 1024 and a unit index of at most 6, and the lookup in
the table " KMGTPE" at that index finds a character. -/
theorem C10_nicenum_loop_bounds (num : Nat) :
    (nicenum_loop num 0).1 < 1024 ∧ (nicenum_loop num 0).2 ≤ 6 ∧
      (unit_char (nicenum_loop num 0).2).isSome = true := by
  have hidx : (nicenum_loop num 0).2 ≤ 6 := by
    rw [nicenum_loop_eq]
    split
    · have h2 : nicenum_step num ≤ 16 * 1024 ^ 5 := by
        unfold nicenum_step
        have h3 : (num + 1024 / 2) % 2 ^ 64 < 2 ^ 64 := Nat.mod_lt _ (by norm_num)
        norm_num at h3 ⊢
        omega
      have h4 := nicenum_loop_index_le 5 (nicenum_step num) (0 + 1) h2
      omega
    · simp
  refine ⟨nicenum_loop_fst_lt num 0, hidx, ?_⟩
  generalize (nicenum_loop num 0).2 = idx at hidx
  interval_cases idx <;> rfl

/-- C1, as stated, fails: `nicenum(10240)` leaves n = 10 with index 1, and
10240 is no power of two, so the branch `n < 100` prints one decimal. -/
theorem C1_counterexample :
    nicenum 10240 = "10.0K" ∧
      ¬ (nicenum 1023 = "1023" ∧ nicenum 1024 = "1K" ∧ nicenum 1536 = "1.50K" ∧
        nicenum 10240 = "10K" ∧ nicenum (2 ^ 30) = "1G") := by
  have h : nicenum 10240 = "10.0K" := by
    simp [nicenum, nicenum_loop, nicenum_step]
    decide
  refine ⟨h, ?_⟩
  rintro ⟨-, -, -, h4, -⟩
  rw [h] at h4
  exact absurd h4 (by decide)

/-- C1, amended: `nicenum` yields "1023" for 1023, "1K" for 1024, "1.50K" for
1536, "10.0K" for 10240 and "1G" for 2^30. -/
theorem C1_nicenum_examples :
    nicenum 1023 = "1023" ∧ nicenum 1024 = "1K" ∧ nicenum 1536 = "1.50K" ∧
      nicenum 10240 = "10.0K" ∧ nicenum (2 ^ 30) = "1G" := by
  refine ⟨?_, ?_, ?_, ?_, ?_⟩ <;> simp [nicenum, nicenum_loop, nicenum_step] <;> decide

/-- C2: for every k from 0 to 63, `nicenum(2^k)` is the decimal digits of
2^(k mod 10) followed by the unit at index k div 10 of none, K, M, G, T, P, E,
and contains no decimal point. -/
theorem C2_nicenum_pow2 (k : Nat) (h : k ≤ 63) :
    nicenum (2 ^ k) = pow2_rendering k ∧ (nicenum (2 ^ k)).toList.all (fun c => c != '.') := by
  have h1 : nicenum (2 ^ k) = pow2_rendering k := by
    interval_cases k <;> simp [nicenum, nicenum_loop, nicenum_step] <;> decide
  have h2 : (pow2_rendering k).toList.all (fun c => c != '.') = true := by
    interval_cases k <;> decide
  exact ⟨h1, h1 ▸ h2⟩

/-- Witness of C2 at k = 63. -/
theorem C2_nicenum_pow2_witness :
    63 ≤ 63 ∧ nicenum (2 ^ 63) = pow2_rendering 63 ∧
      (nicenum (2 ^ 63)).toList.all (fun c => c != '.') :=
  ⟨by decide, C2_nicenum_pow2 63 (by decide)⟩

/-! ## Properties of dumpheader -/

/-- C4, as stated, fails: with `DF_VALID` and `DF_COMPLETE` set and none of
`DF_KERNEL`, `DF_CURPROC`, `DF_ALL`, the rendering stops after the third word;
no content word and no closing parenthesis follow. -/
theorem C4_counterexample :
    flag_words sample_platform 3 =
      [⟨" (VALID|", []⟩, ⟨"COMPLETE|", []⟩, ⟨"CRASH|", []⟩] ∧
    (flag_words sample_platform 3).getLast? ≠ some ⟨"ALL)\n", []⟩ := by
  decide

/-- C4, amended: for every flags value in which at least one of `DF_KERNEL`,
`DF_CURPROC`, `DF_ALL` is set, the rendering is four words: VALID or INVALID,
COMPLETE or INCOMPLETE, LIVE or CRASH, each chosen by its flag, then KERNEL if
`DF_KERNEL` is set, otherwise CURPROC if `DF_CURPROC` is set, otherwise ALL,
with the closing parenthesis and newline. -/
theorem C4_flag_words (P : Platform) (dump_flags : Nat)
    (h : dump_flags &&& P.DF_KERNEL ≠ 0 ∨ dump_flags &&& P.DF_CURPROC ≠ 0 ∨
      dump_flags &&& P.DF_ALL ≠ 0) :
    flag_words P dump_flags =
      [⟨if dump_flags &&& P.DF_VALID ≠ 0 then " (VALID|" else " (INVALID|", []⟩,
       ⟨if dump_flags &&& P.DF_COMPLETE ≠ 0 then "COMPLETE|" else "INCOMPLETE|", []⟩,
       ⟨if dump_flags &&& P.DF_LIVE ≠ 0 then "LIVE|" else "CRASH|", []⟩,
       ⟨if dump_flags &&& P.DF_KERNEL ≠ 0 then "KERNEL)\n"
        else if dump_flags &&& P.DF_CURPROC ≠ 0 then "CURPROC)\n" else "ALL)\n", []⟩] := by
  unfold flag_words
  by_cases hk : dump_flags &&& P.DF_KERNEL ≠ 0
  · simp [hk]
  · by_cases hc : dump_flags &&& P.DF_CURPROC ≠ 0
    · simp [hk, hc]
    · have ha : dump_flags &&& P.DF_ALL ≠ 0 := by tauto
      simp [hk, hc, ha]

/-- Witness of the amended C4 at flags 0x00060005: `DF_CURPROC` wins over `DF_ALL`. -/
theorem C4_flag_words_witness :
    flag_words sample_platform 0x00060005 =
      [⟨" (VALID|", []⟩, ⟨"INCOMPLETE|", []⟩, ⟨"LIVE|", []⟩, ⟨"CURPROC)\n", []⟩] :=
  (C4_flag_words sample_platform 0x00060005 (by decide)).trans (by decide)

/-! ## Properties of tunables -/

/-- C3 at the failing input: in an image whose symbol table lacks
`zfs_arc_max`, the lookup returns -1, and `tunables` does not stop there: it
prints the banner and 39 name/value lines, and ends with a read error on the
unresolved name. -/
theorem C3_tunables_lookup_failure_ignored :
    (kvm_nlist tunables_image_unresolved tunables_nl).1 = -1 ∧
    (tunables sample_platform tunables_image_unresolved).out.take 2 =
      [⟨"=============== system tunables ==========\n", []⟩,
       ⟨"%21s %d\n", [.str "avefree", .int 7]⟩] ∧
    (tunables sample_platform tunables_image_unresolved).out.length = 40 ∧
    (tunables sample_platform tunables_image_unresolved).fatal =
      some ⟨"kvm_read error: %s\n", [.str "zfs_arc_max"]⟩ := by
  decide

/-! ## Properties of panicbuf -/

/-- C9 at the failing inputs: when the read of `panic_thread` is the first to
fail, and when the read of `panicbuf` is the first to fail, the message passed
to `die` names `panic_cpu`. -/
theorem C9_read_error_names_panic_cpu :
    ((panic_image_thread_unreadable.kvm_read
        (panic_image_thread_unreadable.n_value "panic_cpu")
        sample_platform.sizeof_cpu_t).isSome = true ∧
      panic_image_thread_unreadable.kvm_read
        (panic_image_thread_unreadable.n_value "panic_thread")
        sample_platform.sizeof_kthread_t = none ∧
      (panicbuf sample_platform panic_image_thread_unreadable).fatal =
        some ⟨"kvm_read error: %s\n", [.str "panic_cpu"]⟩) ∧
    ((panic_image_buf_unreadable.kvm_read
        (panic_image_buf_unreadable.n_value "panic_cpu")
        sample_platform.sizeof_cpu_t).isSome = true ∧
      (panic_image_buf_unreadable.kvm_read
        (panic_image_buf_unreadable.n_value "panic_thread")
        sample_platform.sizeof_kthread_t).isSome = true ∧
      panic_image_buf_unreadable.kvm_read
        (panic_image_buf_unreadable.n_value "panicbuf")
        (1 * sample_platform.PANICBUFSIZE) = none ∧
      (panicbuf sample_platform panic_image_buf_unreadable).fatal =
        some ⟨"kvm_read error: %s\n", [.str "panic_cpu"]⟩) := by
  decide

/-- C5: when the lookup and the three reads succeed and `pd_version` differs
from `PANICBUFVERS`, `panicbuf` ends without a fatal error after the banner,
the cpu line and the thread line; no name/value line is printed, whatever the
rest of the buffer holds. -/
theorem C5_version_mismatch (P : Platform) (kd : kvm_t) (cpu thread buf : List Nat)
    (hnl : kd.nlist_ret panicbuf_nl ≠ -1)
    (h0 : kd.kvm_read (kd.n_value "panic_cpu") P.sizeof_cpu_t = some cpu)
    (h1 : kd.kvm_read (kd.n_value "panic_thread") P.sizeof_kthread_t = some thread)
    (h2 : kd.kvm_read (kd.n_value "panicbuf") (1 * P.PANICBUFSIZE) = some buf)
    (hv : P.pd_version buf ≠ P.PANICBUFVERS) :
    panicbuf P kd =
      ⟨[⟨"=============== panic info ===============\n", []⟩,
        ⟨"%16s %d\n", [.str "cpu", .int (P.cpu_id cpu)]⟩,
        ⟨"%16s %p\n", [.str "thread", .ptr (P.uintptr_of thread)]⟩], none⟩ ∧
    (panicbuf P kd).out.filter (fun p => p.fmt == "%16s %llx\n") = [] := by
  have h : panicbuf P kd =
      ⟨[⟨"=============== panic info ===============\n", []⟩,
        ⟨"%16s %d\n", [.str "cpu", .int (P.cpu_id cpu)]⟩,
        ⟨"%16s %p\n", [.str "thread", .ptr (P.uintptr_of thread)]⟩], none⟩ := by
    simp [panicbuf, kvm_nlist, panicbuf_nl, nl_get] at hnl h0 h1 h2 ⊢
    simp [hnl, h0, h1, h2, hv]
  refine ⟨h, ?_⟩
  rw [h]
  simp [List.filter]

/-- Witness of C5: the sample buffer with version 1. -/
theorem C5_version_mismatch_witness :
    panicbuf sample_platform panic_image_v1 =
      ⟨[⟨"=============== panic info ===============\n", []⟩,
        ⟨"%16s %d\n", [.str "cpu", .int 3]⟩,
        ⟨"%16s %p\n", [.str "thread", .ptr 65536]⟩], none⟩ ∧
    (panicbuf sample_platform panic_image_v1).out.filter
      (fun p => p.fmt == "%16s %llx\n") = [] :=
  C5_version_mismatch sample_platform panic_image_v1 (cpu_bytes.take 16)
    (thread_bytes.take 16) ((panic_bytes 1).take (1 * 8192))
    (by decide) rfl rfl rfl (by decide)

theorem size_t_sub_eq (P : Platform) (a b : Nat) (hb : b ≤ a) (ha : a < 2 ^ P.wordsize) :
    size_t_sub P a b = a - b := by
  unfold size_t_sub
  rw [Nat.mod_eq_of_lt ha, Nat.mod_eq_of_lt (lt_of_le_of_lt hb ha)]
  have h1 : a + 2 ^ P.wordsize - b = (a - b) + 2 ^ P.wordsize := by omega
  rw [h1, Nat.add_mod_right, Nat.mod_eq_of_lt]
  omega

theorem word_bound (P : Platform) (h : 32 ≤ P.wordsize) : 2 ^ 32 ≤ 2 ^ P.wordsize :=
  Nat.pow_le_pow_right (by norm_num) h

theorem offsetof_pd_nvdata_eq (P : Platform) (hP : panic_layout_ok P) :
    offsetof_pd_nvdata P = P.sizeof_panic_data_t - P.sizeof_panic_nv_t := by
  obtain ⟨_, h2, h3, h4, h5⟩ := hP
  have hw := word_bound P h5
  unfold offsetof_pd_nvdata
  apply size_t_sub_eq _ _ _ h2
  omega

theorem nv_count_eq (P : Platform) (buf : List Nat) (N : Nat) (hP : panic_layout_ok P)
    (hoff : P.pd_msgoff buf =
      (P.sizeof_panic_data_t - P.sizeof_panic_nv_t) + N * P.sizeof_panic_nv_t)
    (hin : P.pd_msgoff buf ≤ P.PANICBUFSIZE) :
    nv_count P buf = N := by
  have hH := offsetof_pd_nvdata_eq P hP
  obtain ⟨h1, h2, h3, h4, h5⟩ := hP
  have hw := word_bound P h5
  unfold offsetof_pd_nvdata at hH
  unfold nv_count
  rw [hH, size_t_sub_eq P _ _ (by omega) (by omega), hoff, Nat.add_sub_cancel_left,
    Nat.mul_div_cancel _ h1]
  have hN : N ≤ N * P.sizeof_panic_nv_t := Nat.le_mul_of_pos_right N h1
  have hlt : N < 2 ^ 31 := by omega
  unfold to_int
  rw [Nat.mod_eq_of_lt (by omega)]
  norm_num at hlt
  simp [hlt]

/-- C6: when the lookup and the three reads succeed, `pd_version` equals
`PANICBUFVERS` and `pd_msgoff = H + N * P` lies within the buffer, with H =
`sizeof (panic_data_t) - sizeof (panic_nv_t)` and P = `sizeof (panic_nv_t)`,
`panicbuf` ends without a fatal error and prints, after the banner, the cpu,
thread and message lines, exactly N name/value lines, the i-th made of the
pair stored at byte offset H + i * P of the buffer, in that order. -/
theorem C6_pairs_in_order (P : Platform) (kd : kvm_t) (cpu thread buf : List Nat) (N : Nat)
    (hP : panic_layout_ok P)
    (hnl : kd.nlist_ret panicbuf_nl ≠ -1)
    (h0 : kd.kvm_read (kd.n_value "panic_cpu") P.sizeof_cpu_t = some cpu)
    (h1 : kd.kvm_read (kd.n_value "panic_thread") P.sizeof_kthread_t = some thread)
    (h2 : kd.kvm_read (kd.n_value "panicbuf") (1 * P.PANICBUFSIZE) = some buf)
    (hv : P.pd_version buf = P.PANICBUFVERS)
    (hoff : P.pd_msgoff buf =
      (P.sizeof_panic_data_t - P.sizeof_panic_nv_t) + N * P.sizeof_panic_nv_t)
    (hin : P.pd_msgoff buf ≤ P.PANICBUFSIZE) :
    panicbuf P kd =
      ⟨[⟨"=============== panic info ===============\n", []⟩,
        ⟨"%16s %d\n", [.str "cpu", .int (P.cpu_id cpu)]⟩,
        ⟨"%16s %p\n", [.str "thread", .ptr (P.uintptr_of thread)]⟩,
        ⟨"%16s %s\n", [.str "message", .cstr (cstring (buf.drop (P.pd_msgoff buf)))]⟩] ++
       (List.range N).map (fun i =>
        ⟨"%16s %llx\n",
          [.cstr (cstring (P.pnv_name (buf.drop
            ((P.sizeof_panic_data_t - P.sizeof_panic_nv_t) + i * P.sizeof_panic_nv_t)))),
           .nat (P.pnv_value (buf.drop
            ((P.sizeof_panic_data_t - P.sizeof_panic_nv_t) + i * P.sizeof_panic_nv_t)))]⟩),
       none⟩ := by
  have hn := nv_count_eq P buf N hP hoff hin
  have hH := offsetof_pd_nvdata_eq P hP
  simp [panicbuf, kvm_nlist, panicbuf_nl, nl_get] at hnl h0 h1 h2 ⊢
  simp [hnl, h0, h1, h2, hv, hn, nv_lines, nv_line, pd_nvdata, hH]

/-- Witness of C6: the sample buffer with version 2 and two pairs. -/
theorem C6_pairs_in_order_witness :
    panicbuf sample_platform panic_image =
      ⟨[⟨"=============== panic info ===============\n", []⟩,
        ⟨"%16s %d\n", [.str "cpu", .int 3]⟩,
        ⟨"%16s %p\n", [.str "thread", .ptr 65536]⟩,
        ⟨"%16s %s\n", [.str "message", .cstr [111, 111, 112, 115]]⟩,
        ⟨"%16s %llx\n", [.cstr [112, 99], .nat 255]⟩,
        ⟨"%16s %llx\n", [.cstr [115, 112], .nat 4096]⟩], none⟩ :=
  (C6_pairs_in_order sample_platform panic_image (cpu_bytes.take 16)
    (thread_bytes.take 16) ((panic_bytes 2).take (1 * 8192)) 2
    (by decide) (by decide) rfl rfl rfl (by decide) (by decide) (by decide)).trans (by decide)

/-! ## Properties of msgbuf -/

theorem msgbuf_loop_chain (P : Platform) (L : Libc) (verbose_flg : Int) (kd : kvm_t) :
    ∀ (nodes : List Nat) (mp : Nat) (out : List Printf) (fuel : Nat),
      is_chain P kd mp nodes = true →
      (∀ a ∈ nodes, node_readable P verbose_flg kd a = true) →
      nodes.length < fuel →
      msgbuf_loop P L verbose_flg kd fuel mp out =
        some ⟨out ++ (nodes.map (log_entry P L verbose_flg kd)).flatten, none⟩ := by
  intro nodes
  induction nodes with
  | nil =>
    intro mp out fuel hc _ hf
    cases fuel with
    | zero => simp at hf
    | succ fuel =>
      simp [is_chain] at hc
      simp [msgbuf_loop, hc]
  | cons a rest ih =>
    intro mp out fuel hc hrd hf
    cases fuel with
    | zero => simp at hf
    | succ fuel =>
      simp only [is_chain, Bool.and_eq_true, beq_iff_eq, bne_iff_ne, ne_eq] at hc
      obtain ⟨⟨⟨hmp, ha⟩, _⟩, hrest⟩ := hc
      subst hmp
      have hr := hrd mp (List.mem_cons_self _ _)
      have hrd2 : ∀ b ∈ rest, node_readable P verbose_flg kd b = true :=
        fun b hb => hrd b (List.mem_cons_of_mem _ hb)
      have hlen : rest.length < fuel := by simpa using hf
      unfold node_readable at hr
      cases hnx : kd.kvm_read mp P.sizeof_mblk_t with
      | none => simp [hnx] at hr
      | some nx =>
        simp only [hnx] at hr
        cases hcont : kd.kvm_read (P.b_cont nx) P.sizeof_mblk_t with
        | none => simp [hcont] at hr
        | some cont =>
          simp only [hcont, Bool.and_eq_true, Bool.or_eq_true, decide_eq_true_eq] at hr
          obtain ⟨hl, hline1⟩ := hr
          obtain ⟨line, hline⟩ := Option.isSome_iff_exists.mp hline1
          have hnext : next_of P kd mp = P.b_next nx := by simp [next_of, hnx]
          rw [hnext] at hrest
          have ih2 := fun out => ih (P.b_next nx) out fuel hrest hrd2 hlen
          rw [List.map_cons, List.flatten_cons]
          by_cases hv : verbose_flg ≠ 0
          · have hl2 : (kd.kvm_read (P.b_rptr nx) P.sizeof_log_ctl_t).isSome = true := by
              rcases hl with hl | hl
              · exact absurd hl hv
              · exact hl
            obtain ⟨lctl, hlctl⟩ := Option.isSome_iff_exists.mp hl2
            simp [msgbuf_loop, ha, hnx, hlctl, hcont, hline, hv, ih2, log_entry, node_ttime,
              node_line]
          · simp [msgbuf_loop, ha, hnx, hcont, hline, hv, ih2, log_entry, node_line]

theorem node_readable_of_total (P : Platform) (verbose_flg : Int) (kd : kvm_t)
    (hread : ∀ addr size, (kd.kvm_read addr size).isSome = true) (a : Nat) :
    node_readable P verbose_flg kd a = true := by
  obtain ⟨nx, hnx⟩ := Option.isSome_iff_exists.mp (hread a P.sizeof_mblk_t)
  obtain ⟨cont, hcont⟩ := Option.isSome_iff_exists.mp (hread (P.b_cont nx) P.sizeof_mblk_t)
  simp [node_readable, hnx, hcont, hread]

theorem line_args_append (o1 o2 : List Printf) :
    line_args (o1 ++ o2) = line_args o1 ++ line_args o2 := by
  simp [line_args]

theorem line_args_entries (P : Platform) (L : Libc) (verbose_flg : Int) (kd : kvm_t)
    (nodes : List Nat) :
    line_args (nodes.map (log_entry P L verbose_flg kd)).flatten =
      nodes.map (node_line P kd) := by
  induction nodes with
  | nil => rfl
  | cons a rest ih =>
    rw [List.map_cons, List.flatten_cons, line_args_append, ih]
    have h1 : ¬ (("%s " : String) = "%s") := by decide
    by_cases hv : verbose_flg ≠ 0 <;> simp [line_args, log_entry, hv, List.filterMap, h1]

theorem msgbuf_eq_loop (P : Platform) (L : Libc) (verbose_flg : Int) (kd : kvm_t)
    (fuel mp : Nat) (hnl : kd.nlist_ret ["log_recentq"] ≠ -1)
    (hstart : msgbuf_start P kd = some mp) :
    msgbuf P L verbose_flg kd fuel =
      msgbuf_loop P L verbose_flg kd fuel mp
        [⟨"============ system messages =============\n", []⟩] := by
  unfold msgbuf_start at hstart
  simp only [msgbuf, kvm_nlist, nl_get, List.map, List.getD_cons_zero, hnl, if_false]
  cases h1 : kd.kvm_read (kd.n_value "log_recentq") P.sizeof_uintptr_t with
  | none => simp [h1] at hstart
  | some qp =>
    simp only [h1] at hstart ⊢
    cases h2 : kd.kvm_read (P.uintptr_of qp) P.sizeof_queue_t with
    | none => simp [h2] at hstart
    | some q =>
      simp only [h2] at hstart ⊢
      cases h3 : kd.kvm_read (P.q_first q) P.sizeof_mblk_t with
      | none => simp [h3] at hstart
      | some first =>
        simp only [h3] at hstart ⊢
        cases h4 : kd.kvm_read (P.b_next first) P.sizeof_mblk_t with
        | none => simp [h4] at hstart
        | some next =>
          simp only [h4, Option.some.injEq] at hstart ⊢
          rw [hstart]

theorem msgbuf_chain_run (P : Platform) (L : Libc) (verbose_flg : Int) (kd : kvm_t)
    (mp : Nat) (nodes : List Nat) (k : Nat)
    (hnl : kd.nlist_ret ["log_recentq"] ≠ -1)
    (hstart : msgbuf_start P kd = some mp)
    (hchain : is_chain P kd mp nodes = true)
    (hrd : ∀ a ∈ nodes, node_readable P verbose_flg kd a = true)
    (hk : nodes.length = k) :
    ∃ r : Run,
      (∀ fuel, k < fuel → msgbuf P L verbose_flg kd fuel = some r) ∧
      r.fatal = none ∧
      r.out = ⟨"============ system messages =============\n", []⟩ ::
        (nodes.map (log_entry P L verbose_flg kd)).flatten ∧
      line_args r.out = nodes.map (node_line P kd) ∧
      (line_args r.out).length = k := by
  have h := line_args_append [⟨"============ system messages =============\n", []⟩]
    (nodes.map (log_entry P L verbose_flg kd)).flatten
  rw [List.singleton_append] at h
  have h0 : line_args [⟨"============ system messages =============\n", []⟩] = [] := by
    decide
  refine ⟨⟨⟨"============ system messages =============\n", []⟩ ::
    (nodes.map (log_entry P L verbose_flg kd)).flatten, none⟩, ?_, rfl, rfl, ?_, ?_⟩
  · intro fuel hf
    rw [msgbuf_eq_loop P L verbose_flg kd fuel mp hnl hstart,
      msgbuf_loop_chain P L verbose_flg kd nodes mp _ fuel hchain hrd (hk ▸ hf)]
    rfl
  · rw [h, line_args_entries, h0, List.nil_append]
  · rw [h, line_args_entries, h0, List.nil_append, List.length_map, hk]

theorem msgbuf_start_eq (P : Platform) (kd : kvm_t) (s : Nat)
    (hspec : spec_start P kd = some s)
    (hs : (kd.kvm_read s P.sizeof_mblk_t).isSome = true) :
    msgbuf_start P kd = some (next_of P kd s) := by
  unfold spec_start at hspec
  unfold msgbuf_start
  cases h1 : kd.kvm_read (kd.n_value "log_recentq") P.sizeof_uintptr_t with
  | none => simp [h1] at hspec
  | some qp =>
    simp only [h1] at hspec ⊢
    cases h2 : kd.kvm_read (P.uintptr_of qp) P.sizeof_queue_t with
    | none => simp [h2] at hspec
    | some q =>
      simp only [h2] at hspec ⊢
      cases h3 : kd.kvm_read (P.q_first q) P.sizeof_mblk_t with
      | none => simp [h3] at hspec
      | some first =>
        simp only [h3, Option.some.injEq] at hspec ⊢
        rw [hspec]
        obtain ⟨nx, hnx⟩ := Option.isSome_iff_exists.mp hs
        simp [next_of, hnx]

/-- C7: in an image where the lookup succeeds and every read succeeds, if the
reference the loop of `msgbuf` starts with heads a chain of k nodes linked by
`b_next` and ended by null, then `msgbuf` returns for every fuel above k,
without a fatal error; after the banner it prints the entries of the k nodes
in chain order: exactly k calls `printf("%s", line)`, the i-th on the array
that the read at `b_rptr` of the `b_cont` block of the i-th node filled.  The
text of an entry is the bytes of its array before the first NUL; for an array
without a NUL byte the text is left undetermined (`printed_text`). -/
theorem C7_msgbuf_chain (P : Platform) (L : Libc) (verbose_flg : Int) (kd : kvm_t)
    (mp : Nat) (nodes : List Nat) (k : Nat)
    (hnl : kd.nlist_ret ["log_recentq"] ≠ -1)
    (hread : ∀ addr size, (kd.kvm_read addr size).isSome = true)
    (hstart : msgbuf_start P kd = some mp)
    (hchain : is_chain P kd mp nodes = true)
    (hk : nodes.length = k) :
    ∃ r : Run,
      (∀ fuel, k < fuel → msgbuf P L verbose_flg kd fuel = some r) ∧
      r.fatal = none ∧
      r.out = ⟨"============ system messages =============\n", []⟩ ::
        (nodes.map (log_entry P L verbose_flg kd)).flatten ∧
      line_args r.out = nodes.map (node_line P kd) ∧
      (line_args r.out).length = k ∧
      (line_args r.out).map printed_text =
        nodes.map (fun a => printed_text (node_line P kd a)) := by
  obtain ⟨r, h1, h2, h3, h4, h5⟩ :=
    msgbuf_chain_run P L verbose_flg kd mp nodes k hnl hstart hchain
      (fun a _ => node_readable_of_total P verbose_flg kd hread a) hk
  refine ⟨r, h1, h2, h3, h4, h5, ?_⟩
  rw [h4, List.map_map]
  rfl

/-- Witness of C7: the chain of the three nodes 1280, 1536, 1792 of the sample log. -/
theorem C7_msgbuf_chain_witness :
    ∃ r : Run,
      (∀ fuel, 3 < fuel → msgbuf sample_platform sample_libc 0 log_image fuel = some r) ∧
      r.fatal = none ∧
      r.out = ⟨"============ system messages =============\n", []⟩ ::
        ([1280, 1536, 1792].map (log_entry sample_platform sample_libc 0 log_image)).flatten ∧
      line_args r.out = [1280, 1536, 1792].map (node_line sample_platform log_image) ∧
      (line_args r.out).length = 3 ∧
      (line_args r.out).map printed_text =
        [1280, 1536, 1792].map (fun a => printed_text (node_line sample_platform log_image a)) :=
  C7_msgbuf_chain sample_platform sample_libc 0 log_image 1280 [1280, 1536, 1792] 3
    (by decide) (fun _ _ => rfl) (by decide) (by decide) (by decide)

/-- C8, as stated, fails: in the sample log the queue's first buffer is at 768
and its `b_next` is the node at 1024, which heads the chain 1024, 1280, 1536,
1792; `msgbuf` starts at 1280, the `b_next` of the node at 1024, and prints
the lines of 1280, 1536 and 1792 only: the line of 1024 is not printed. -/
theorem C8_counterexample :
    spec_start sample_platform log_image = some 1024 ∧
    is_chain sample_platform log_image 1024 [1024, 1280, 1536, 1792] = true ∧
    msgbuf_start sample_platform log_image = some 1280 ∧
    msgbuf_start sample_platform log_image ≠ spec_start sample_platform log_image ∧
    node_line sample_platform log_image 1024 = [65, 10, 0] ∧
    msgbuf sample_platform sample_libc 0 log_image 5 =
      some ⟨[⟨"============ system messages =============\n", []⟩,
        ⟨"%s", [.chars [66, 10, 0]]⟩, ⟨"%s", [.chars [67, 10, 0]]⟩,
        ⟨"%s", [.chars [68, 10, 0]]⟩], none⟩ := by
  decide

/-- C8, amended: let `s` be the `b_next` of the buffer that `q_first` of the
queue addresses, the lookup and the reads up to that buffer succeeding.  If
`s` heads the chain A, B, C, ... and the reads the loop performs for B, C, ...
succeed, then the loop of `msgbuf` starts at the `b_next` of A, and `msgbuf`
prints the entries of B, C, ... in that order and none for A. -/
theorem C8_msgbuf_starts_after_next (P : Platform) (L : Libc) (verbose_flg : Int)
    (kd : kvm_t) (s A : Nat) (rest : List Nat)
    (hnl : kd.nlist_ret ["log_recentq"] ≠ -1)
    (hspec : spec_start P kd = some s)
    (hchain : is_chain P kd s (A :: rest) = true)
    (hrd : ∀ a ∈ rest, node_readable P verbose_flg kd a = true) :
    msgbuf_start P kd = some (next_of P kd A) ∧
    ∃ r : Run,
      (∀ fuel, rest.length < fuel → msgbuf P L verbose_flg kd fuel = some r) ∧
      r.fatal = none ∧
      r.out = ⟨"============ system messages =============\n", []⟩ ::
        (rest.map (log_entry P L verbose_flg kd)).flatten ∧
      line_args r.out = rest.map (node_line P kd) := by
  simp only [is_chain, Bool.and_eq_true, beq_iff_eq] at hchain
  obtain ⟨⟨⟨hsA, _⟩, hA⟩, hrest⟩ := hchain
  subst hsA
  have hstart := msgbuf_start_eq P kd s hspec hA
  refine ⟨hstart, ?_⟩
  obtain ⟨r, h1, h2, h3, h4, _⟩ :=
    msgbuf_chain_run P L verbose_flg kd (next_of P kd s) rest rest.length hnl hstart
      hrest hrd rfl
  exact ⟨r, h1, h2, h3, h4⟩

/-- Witness of the amended C8 on the sample log in which reads outside the
regions fail. -/
theorem C8_msgbuf_starts_after_next_witness :
    msgbuf_start sample_platform log_image_strict =
      some (next_of sample_platform log_image_strict 1024) ∧
    ∃ r : Run,
      (∀ fuel, [1280, 1536, 1792].length < fuel →
        msgbuf sample_platform sample_libc 0 log_image_strict fuel = some r) ∧
      r.fatal = none ∧
      r.out = ⟨"============ system messages =============\n", []⟩ ::
        ([1280, 1536, 1792].map
          (log_entry sample_platform sample_libc 0 log_image_strict)).flatten ∧
      line_args r.out = [1280, 1536, 1792].map (node_line sample_platform log_image_strict) :=
  C8_msgbuf_starts_after_next sample_platform sample_libc 0 log_image_strict 1024 1024
    [1280, 1536, 1792] (by decide) (by decide) (by decide) (by decide)

end Crashinfo
